import Mathlib

/-!
Verification development for the matchmyjobs ATS-scoring engine.

This file gives a shallow embedding, in Lean 4, of the deterministic parts of
the Python scoring engine under `backend/`:

  * `backend/engine/scorer.py`      — the wired pipeline `run_analysis`
  * `backend/engine/ats_scorer.py`  — the component scorers
  * `backend/engine/seniority.py`   — experience / date-range reconciliation
  * `backend/engine/diagnostics.py` — text diagnostics (education gate)
  * `backend/engine/skills.py`      — keyword-stuffing detection
  * `backend/main.py`               — input validation of the `/score` route

External collaborators (the LLM extractor, spaCy similarity and noun-chunk
extraction, the regex matcher for dates/frequencies) are modelled as explicit
inputs; everything downstream of them is translated directly from the source.
Machine floats are modelled by exact rationals; Python's `round(x, 1)` is
modelled as round-half-up to one decimal (the two agree except at exact ties,
which none of the concrete inputs below hit).
-/

namespace Util

/-- Does the character list `hay` start with `needle`? -/
def charsStartsWith : List Char → List Char → Bool
  | _, [] => true
  | [], _ :: _ => false
  | c :: cs, d :: ds => c = d && charsStartsWith cs ds

/-- Does `needle` occur as a contiguous sublist of `hay`?
Models Python's `needle in hay` on strings. -/
def charsContains : List Char → List Char → Bool
  | [], needle => needle.isEmpty
  | c :: cs, needle => charsStartsWith (c :: cs) needle || charsContains cs needle

/-- Python `needle in hay` (substring containment). -/
def containsStr (hay needle : String) : Bool :=
  charsContains hay.data needle.data

/-- Python `str.lower()` (ASCII case folding, which covers all inputs used here). -/
def lowerStr (s : String) : String :=
  ⟨s.data.map Char.toLower⟩

/-- Auxiliary run-counter for `wordCount`: `inWord` says whether the previous
character was part of a word. -/
def countWordsAux : List Char → Bool → Nat
  | [], _ => 0
  | c :: cs, inWord =>
    if c.isWhitespace then countWordsAux cs false
    else (if inWord then 0 else 1) + countWordsAux cs true

/-- Python `len(s.split())`: the number of maximal non-whitespace runs. -/
def wordCount (s : String) : Nat :=
  countWordsAux s.data false

/-- Python `not s.strip()`: `s` is empty or entirely whitespace. -/
def allWhitespace (s : String) : Bool :=
  s.data.all Char.isWhitespace

/-- Split a string into its maximal non-whitespace runs (Python `s.split()`). -/
def splitWordsAux : List Char → List Char → List String
  | [], [] => []
  | [], acc => [⟨acc.reverse⟩]
  | c :: cs, acc =>
    if c.isWhitespace then
      match acc with
      | [] => splitWordsAux cs []
      | _ => ⟨acc.reverse⟩ :: splitWordsAux cs []
    else splitWordsAux cs (c :: acc)

/-- Python `s.split()` as a list of words. -/
def splitWords (s : String) : List String :=
  splitWordsAux s.data []

/-- Digit-string to number, `none` if any character is not a digit or the
string is empty.  Models `int(s)` on the `\d{4}` regex captures. -/
def digitsToNat : List Char → Option Nat
  | [] => none
  | cs => cs.foldl (fun acc c =>
      acc.bind (fun n => if c.isDigit then some (n * 10 + (c.toNat - 48)) else none))
      (some 0)

/-- Floor of a rational, computably (denominators are positive). -/
def ratFloor (q : ℚ) : ℤ :=
  Int.fdiv q.num q.den

/-- Python `round(x, 1)` modelled on rationals: round half up to one decimal. -/
def pyRound1 (q : ℚ) : ℚ :=
  ((ratFloor (q * 10 + 1/2) : ℤ) : ℚ) / 10

end Util

namespace Seniority

/-! Embedding of `backend/engine/seniority.py`. -/

open Util

/-- A year/month pair, the part of a `datetime` that the month arithmetic in
`_parse_years_from_dates` reads. -/
structure DateYM where
  year : ℤ
  month : ℤ
  deriving DecidableEq, Repr

/-- Month-name table used to model `dateutil.parser.parse` on the
`Month YYYY` strings captured by the `month_year` regex alternatives. -/
def monthTable : List (String × ℤ) :=
  [("jan", 1), ("january", 1), ("feb", 2), ("february", 2),
   ("mar", 3), ("march", 3), ("apr", 4), ("april", 4), ("may", 5),
   ("jun", 6), ("june", 6), ("jul", 7), ("july", 7),
   ("aug", 8), ("august", 8), ("sep", 9), ("sept", 9), ("september", 9),
   ("oct", 10), ("october", 10), ("nov", 11), ("november", 11),
   ("dec", 12), ("december", 12)]

/-- Look up a lowercased month name. -/
def lookupMonth (m : String) : Option ℤ :=
  (monthTable.find? (fun p => p.1 == m)).map (fun p => p.2)

/-- Drop one trailing dot from an abbreviated month token ("Mar." → "Mar"). -/
def dropTrailingDot (s : String) : String :=
  if s.data.getLast? = some '.' then ⟨s.data.dropLast⟩ else s

/-- Models `dateutil.parser.parse(s, fuzzy=True)` restricted to the
`Month YYYY` strings that the `month_year` regex alternatives capture:
the month token (abbreviated or full, optional dot) plus a 4-digit year. -/
def parseMonthYear (s : String) : Option DateYM :=
  match splitWords s with
  | [m, y] =>
    match lookupMonth (lowerStr (dropTrailingDot m)), digitsToNat y.data with
    | some mo, some yr => some ⟨(yr : ℤ), mo⟩
    | _, _ => none
  | _ => none

/-- End-of-range parsing: the `Present/Current/Now` sentinel resolves to the
current date (`datetime.now()`, passed in as `now`); anything else goes
through the month-year parser. -/
def parseEndDate (now : DateYM) (e : String) : Option DateYM :=
  if lowerStr e = "present" ∨ lowerStr e = "current" ∨ lowerStr e = "now" then
    some now
  else parseMonthYear e

/-- `months = (end_date.year - start_date.year) * 12 + (end_date.month - start_date.month)`. -/
def monthsBetween (s e : DateYM) : ℤ :=
  (e.year - s.year) * 12 + (e.month - s.month)

/-- Accumulator state of the matching loop in `_parse_years_from_dates`:
the `seen_ranges` key set, the running month total, and the kept ranges
(literal start text, literal end text, months). -/
structure RangeAcc where
  seen : List String
  totalMonths : ℕ
  ranges : List (String × String × ℤ)
  deriving DecidableEq, Repr

/-- One iteration of the matching loop of `_parse_years_from_dates` on a
regex match `(start_str, end_str)`: skip ranges already seen (keyed by their
literal text), skip unparseable dates, and keep a range only when its months
fall in [2, 600]. -/
def processMatch (now : DateYM) (acc : RangeAcc) (m : String × String) : RangeAcc :=
  let range_key := m.1 ++ "-" ++ m.2
  if acc.seen.contains range_key then acc
  else
    match parseMonthYear m.1, parseEndDate now m.2 with
    | some start_date, some end_date =>
      let months := monthsBetween start_date end_date
      if 2 ≤ months ∧ months ≤ 600 then
        ⟨range_key :: acc.seen, acc.totalMonths + months.toNat,
         acc.ranges ++ [(m.1, m.2, months)]⟩
      else acc
    | _, _ => acc

/-- Total months accumulated over the regex matches found in the experience
section (the matches, in pattern order, are the output of the regex matcher
and are passed in as `matches`). -/
def totalMonthsOf (now : DateYM) (ms : List (String × String)) : ℕ :=
  (ms.foldl (processMatch now) ⟨[], 0, []⟩).totalMonths

/-- `_parse_years_from_dates`, from the regex matches onward:
`total_years = total_months // 12` (floor). -/
def parse_years_from_dates (now : DateYM) (ms : List (String × String)) : ℕ :=
  totalMonthsOf now ms / 12

/-- The experience facts computed by `calculate_total_experience`
(message strings omitted; only status data is modelled). -/
structure ExperienceFact where
  total_years : ℕ
  years_from_text : ℕ
  years_from_dates : ℕ
  has_mismatch : Bool
  deriving DecidableEq, Repr

/-- `calculate_total_experience`, from the two parser outputs onward
(`_parse_years_from_text` and `_parse_years_from_dates` both return
non-negative integers and are passed in as arguments). -/
def calculate_total_experience (years_from_text years_from_dates : ℕ) : ExperienceFact :=
  let calculated_years := max years_from_text years_from_dates
  let has_mismatch :=
    if 0 < years_from_text ∧ 0 < years_from_dates then
      let diff := ((years_from_text : ℤ) - years_from_dates).natAbs
      let tolerance : ℕ := if years_from_text < 5 then 1 else 2
      decide (tolerance < diff)
    else false
  ⟨calculated_years, years_from_text, years_from_dates, has_mismatch⟩

end Seniority

namespace Diagnostics

/-! Embedding of `backend/engine/diagnostics.py` (the education gate). -/

open Util

/-- `_DEGREE_KEYWORDS` from `diagnostics.py` (all lowercase in the source). -/
def degreeKeywords : List String :=
  ["bachelor", "b.s.", "b.a.", "bs ", "ba ", "master", "m.s.", "m.a.",
   "mba", "phd", "ph.d", "doctorate", "associate degree", "a.s.", "a.a.",
   "degree", "university", "college", "graduated"]

/-- `any(kw in res_low for kw in _DEGREE_KEYWORDS)`. -/
def has_edu (resume_text : String) : Bool :=
  degreeKeywords.any (fun kw => containsStr (lowerStr resume_text) kw)

/-- `check_education`, status only (`true` = "hit", `false` = "miss";
the rationale messages are presentational and omitted).  `edu_required` and
`edu_preferred` are the `_EDU_REQUIRED_RE` / `_EDU_PREFERRED_RE` regex
results on the lowercased job description, passed in as booleans. -/
def check_education (resume_text : String) (edu_required edu_preferred : Bool) : Bool :=
  if edu_required ∧ ¬ has_edu resume_text then false
  else if edu_required ∧ has_edu resume_text then true
  else if edu_preferred ∧ has_edu resume_text then true
  else if ¬ has_edu resume_text then false
  else true

end Diagnostics

namespace Skills

/-! Embedding of `backend/engine/skills.py` (`detect_keyword_stuffing`). -/

open Util

/-- `skill_mentions[skill] = sum(1 for s in skills if skill.lower() in s.lower())`:
how many skills of the list contain this skill as a substring. -/
def skillMentions (skills : List String) (skill : String) : ℕ :=
  (skills.filter (fun s => containsStr (lowerStr s) (lowerStr skill))).length

/-- Select the first element with the maximal mention count, returning it and
the rest of the list in order.  Iterated three times this reproduces
`sorted(skill_mentions.items(), key=..., reverse=True)[:3]` (Python's sort is
stable, so ties keep insertion order). -/
def pickTopMention : List (String × ℕ) → Option ((String × ℕ) × List (String × ℕ))
  | [] => none
  | x :: rest =>
    match pickTopMention rest with
    | none => some (x, [])
    | some (m, others) =>
      if m.2 > x.2 then some (m, x :: others) else some (x, rest)

/-- The top-3 "primary" (most central) skills. -/
def top3central (skills : List String) : List String :=
  let withCounts := skills.map (fun s => (s, skillMentions skills s))
  match pickTopMention withCounts with
  | none => []
  | some (a, rest1) =>
    match pickTopMention rest1 with
    | none => [a.1]
    | some (b, rest2) =>
      match pickTopMention rest2 with
      | none => [a.1, b.1]
      | some (c, _) => [a.1, b.1, c.1]

/-- `detect_keyword_stuffing(resume_text, skills, threshold)`.  The frequency
map `freq` stands for `keyword_frequency(resume_text, skills)` (a regex
word-boundary count, external to this embedding); everything else follows the
source: `adjusted_threshold = max(threshold, word_count // 120)`, the top-3
central skills are exempt unless their count exceeds 12. -/
def detect_keyword_stuffing (resume_text : String) (skills : List String)
    (freq : String → ℕ) (threshold : ℕ) : List String :=
  let word_count := wordCount resume_text
  let adjusted_threshold := max threshold (word_count / 120)
  let primary_skills := if skills.length > 0 then top3central skills else []
  skills.filter (fun skill =>
    decide (adjusted_threshold ≤ freq skill) &&
      (!(primary_skills.contains skill) || decide (12 < freq skill)))

/-- The flagging rule exactly as the claim states it (spec wording), for
comparison with `detect_keyword_stuffing`: threshold `max(6, word_count/120)`
with the same top-3 exemption and absolute ceiling of 12. -/
def claim_stuffing_flag (resume_text : String) (skills : List String)
    (freq : String → ℕ) (skill : String) : Prop :=
  max 6 (wordCount resume_text / 120) ≤ freq skill ∧
    (skill ∈ top3central skills → 12 < freq skill)

instance (r : String) (sk : List String) (f : String → ℕ) (s : String) :
    Decidable (claim_stuffing_flag r sk f s) := by
  unfold claim_stuffing_flag; infer_instance

end Skills

namespace AtsScorer

/-! Embedding of `backend/engine/ats_scorer.py`. -/

open Util

/-- Result of `score_keyword_match`: the score and the reported match rate
(`round(match_rate * 100, 1)`; 0 when no skills are required). -/
structure KeywordMatch where
  score : ℚ
  match_rate : ℚ
  deriving DecidableEq, Repr

/-- `score_keyword_match(matched_skills, required_skills)`: hard-gate step
scoring at 80% / 60% / 40% of `match_rate = total_matched / total_required`,
returning score 0 when the job description has no required skills. -/
def score_keyword_match (matched_skills required_skills : List String) : KeywordMatch :=
  let total_required := required_skills.length
  let total_matched := matched_skills.length
  if total_required = 0 then ⟨0, 0⟩
  else
    let match_rate : ℚ := (total_matched : ℚ) / (total_required : ℚ)
    let score : ℚ :=
      if 4/5 ≤ match_rate then 40
      else if 3/5 ≤ match_rate then 30
      else if 2/5 ≤ match_rate then 20
      else 10
    ⟨score, pyRound1 (match_rate * 100)⟩

/-- `score_experience_match(resume_text, required_years)`, from the detected
years onward (`years_detected = _calculate_total_years(resume_text)` is a
non-negative integer produced by the date-range regexes and is passed in).
Subtractions are ℕ-truncated, which agrees with the Python integer
arithmetic on every reachable branch (the `required_years - 2` branch is
reached only when `required_years ≥ 2`, except for `required_years = 1`
where both versions make the second branch `years_detected >= 0` succeed
first). -/
def score_experience_match (years_detected required_years : ℕ) : ℚ :=
  if required_years = 0 then 15
  else if required_years ≤ years_detected then 15
  else if required_years - 1 ≤ years_detected then 10
  else if required_years - 2 ≤ years_detected then 5
  else 0

/-- Result of `score_seniority_match`. -/
structure SeniorityMatch where
  score : ℚ
  resume_level : String
  jd_level : String
  deriving DecidableEq, Repr

/-- `senior_indicators` from `score_seniority_match`. -/
def senior_indicators : List String :=
  ["senior", "lead", "principal", "staff", "architect", "director",
   "led team", "managed team", "mentored", "architected", "owned"]

/-- `mid_indicators` from `score_seniority_match` (counted but unused by the
level decision, kept for fidelity). -/
def mid_indicators : List String :=
  ["developed", "implemented", "built", "designed", "created",
   "collaborated", "worked with", "contributed"]

/-- `entry_indicators` from `score_seniority_match`. -/
def entry_indicators : List String :=
  ["assisted", "supported", "helped", "learned", "intern",
   "entry", "junior", "associate"]

/-- `sum(1 for indicator in indicators if indicator in resume_lower)`. -/
def countIndicators (resume_lower : String) (indicators : List String) : ℕ :=
  (indicators.filter (fun i => containsStr resume_lower i)).length

/-- `score_seniority_match(resume_text, jd_seniority)`: classify the resume as
senior/entry/mid from indicator counts, then score the level pair. -/
def score_seniority_match (resume_text jd_seniority : String) : SeniorityMatch :=
  let resume_lower := lowerStr resume_text
  let senior_count := countIndicators resume_lower senior_indicators
  let entry_count := countIndicators resume_lower entry_indicators
  let resume_level : String :=
    if 3 ≤ senior_count then "senior"
    else if 2 ≤ entry_count then "entry"
    else "mid"
  let jd_level : String :=
    if jd_seniority = "" then "mid" else lowerStr jd_seniority
  let score : ℚ :=
    if resume_level = jd_level then 5
    else if (resume_level = "senior" ∧ jd_level = "mid") ∨
            (resume_level = "mid" ∧ jd_level = "entry") then 4
    else if (resume_level = "mid" ∧ jd_level = "senior") ∨
            (resume_level = "entry" ∧ jd_level = "mid") then 2
    else 1
  ⟨score, resume_level, jd_level⟩

end AtsScorer

namespace Scorer

/-! Embedding of `backend/engine/scorer.py` (the wired pipeline).

`run_analysis(resume_text, jd_text, nlp)` first obtains the LLM extraction,
the spaCy similarity, the spaCy fallback skill sets and the deterministic
diagnostic statuses, then computes the weighted score.  Those upstream
results are gathered in `Inputs`; the arithmetic from there on (lines
121–160 and the breakdown of lines 262–272) is translated directly. -/

open Util

/-- `W_KEYWORD_OVERLAP = 30`. -/
def W_KEYWORD_OVERLAP : ℚ := 30
/-- `W_SEMANTIC = 10` (blended into keyword_placement). -/
def W_SEMANTIC : ℚ := 10
/-- `W_PLACEMENT = 10`. -/
def W_PLACEMENT : ℚ := 10
/-- `W_EXPERIENCE = 10`. -/
def W_EXPERIENCE : ℚ := 10
/-- `W_EDUCATION = 10`. -/
def W_EDUCATION : ℚ := 10
/-- `W_STRUCTURE = 3`. -/
def W_STRUCTURE : ℚ := 3
/-- `W_FORMATTING = 2`. -/
def W_FORMATTING : ℚ := 2
/-- `W_IMPACT = 5`. -/
def W_IMPACT : ℚ := 5
/-- `W_CONTACT = 5`. -/
def W_CONTACT : ℚ := 5
/-- `W_SENIORITY = 5`. -/
def W_SENIORITY : ℚ := 5

/-- `_pct(part, total)`. -/
def pct (part total : ℕ) : ℚ :=
  if total ≠ 0 then (part : ℚ) / (total : ℚ) * 100 else 0

/-- The upstream data `run_analysis` consumes before the scoring arithmetic:
the LLM extraction lists, the spaCy fallback skill sets and document
similarity, the diagnostic statuses (`true` = "hit") and counts, and the
seniority audit facts. -/
structure Inputs where
  /-- `extraction["matched_skills"]`. -/
  hits : List String
  /-- `extraction["missing_skills"]`. -/
  missing : List String
  /-- `extraction["jd_required_skills"]`. -/
  jd_required_skills : List String
  /-- `spacy_extract_skills(res_doc)` (a set, modelled as a duplicate-free list). -/
  spacy_resume_skills : List String
  /-- `spacy_extract_skills(jd_doc)` (a set, modelled as a duplicate-free list). -/
  spacy_jd_skills : List String
  /-- `res_doc.similarity(jd_doc)`. -/
  similarity : ℚ
  /-- `check_keyword_placement(...)["status"] == "hit"`. -/
  placement_hit : Bool
  /-- `check_keyword_placement(...)["summary_hits"]`. -/
  summary_hits : ℕ
  /-- `check_section_headings(...)["status"] == "hit"`. -/
  headings_hit : Bool
  /-- `check_dates(...)["status"] == "hit"`. -/
  dates_hit : Bool
  /-- `check_education(...)["status"] == "hit"`. -/
  education_hit : Bool
  /-- `build_seniority_audit(...)["status"] == "hit"`. -/
  seniority_hit : Bool
  /-- `check_quantified_impact(...)["status"] == "hit"`. -/
  impact_hit : Bool
  /-- `check_quantified_impact(...)["count"]`. -/
  impact_count : ℕ
  /-- `sum(1 for c in contact.values() if c["status"] == "hit")` (of the 3 sub-checks). -/
  contact_hits : ℕ
  /-- `extraction.get("required_years", 0)`. -/
  required_years : ℕ
  /-- `seniority["experience_audit"]["total_years"]`. -/
  resume_years : ℕ
  deriving Repr

/-- Step 2 of `run_analysis`: when the AI extraction returned no matched and
no missing skills, fall back to the spaCy skill sets
(`hits = sorted(jd_skills & res_skills)` etc.; the `sorted()` calls only
affect display order, which no score reads, and are omitted).
Returns (hits, missing, number of distinct JD skills). -/
def effective (inp : Inputs) : List String × List String × ℕ :=
  if inp.hits = [] ∧ inp.missing = [] then
    let jd_skills := inp.spacy_jd_skills.eraseDups
    (jd_skills.filter (fun s => inp.spacy_resume_skills.contains s),
     jd_skills.filter (fun s => !(inp.spacy_resume_skills.contains s)),
     jd_skills.length)
  else
    (inp.hits, inp.missing, inp.jd_required_skills.eraseDups.length)

/-- `total_jd = max(len(all_jd_skills), len(hits) + len(missing), 1)`. -/
def total_jd (inp : Inputs) : ℕ :=
  max (effective inp).2.2 (max ((effective inp).1.length + (effective inp).2.1.length) 1)

/-- `keyword_score = (_pct(len(hits), total_jd) / 100) * W_KEYWORD_OVERLAP`. -/
def keyword_score (inp : Inputs) : ℚ :=
  pct (effective inp).1.length (total_jd inp) / 100 * W_KEYWORD_OVERLAP

/-- `semantic_score = res_doc.similarity(jd_doc) * W_SEMANTIC`. -/
def semantic_score (inp : Inputs) : ℚ :=
  inp.similarity * W_SEMANTIC

/-- `placement_score`: full weight on "hit", 40% with summary hits, else 0. -/
def placement_score (inp : Inputs) : ℚ :=
  if inp.placement_hit then W_PLACEMENT
  else if 0 < inp.summary_hits then W_PLACEMENT * (2/5)
  else 0

/-- `structure_score = W_STRUCTURE if headings hit else 0`. -/
def structure_score (inp : Inputs) : ℚ :=
  if inp.headings_hit then W_STRUCTURE else 0

/-- `formatting_score`: full weight on dates hit, half on headings hit, else 0. -/
def formatting_score (inp : Inputs) : ℚ :=
  if inp.dates_hit then W_FORMATTING
  else if inp.headings_hit then W_FORMATTING * (1/2)
  else 0

/-- `seniority_score = W_SENIORITY if hit else W_SENIORITY * 0.3`. -/
def seniority_score (inp : Inputs) : ℚ :=
  if inp.seniority_hit then W_SENIORITY else W_SENIORITY * (3/10)

/-- `impact_score`: full weight on hit, 40% when at least one metric, else 0. -/
def impact_score (inp : Inputs) : ℚ :=
  if inp.impact_hit then W_IMPACT
  else if 1 ≤ inp.impact_count then W_IMPACT * (2/5)
  else 0

/-- `education_score = W_EDUCATION if education["status"] == "hit" else 0`
(line 137) as a function of the diagnostic status. -/
def education_score_of (education_hit : Bool) : ℚ :=
  if education_hit then W_EDUCATION else 0

/-- `education_score` on the pipeline inputs. -/
def education_score (inp : Inputs) : ℚ :=
  education_score_of inp.education_hit

/-- `contact_score = (contact_hits / len(contact)) * W_CONTACT`; the contact
dict always has exactly 3 entries (location, contact_channels, linkedin). -/
def contact_score (inp : Inputs) : ℚ :=
  (inp.contact_hits : ℚ) / 3 * W_CONTACT

/-- The experience sub-score of `run_analysis` (lines 145–153):
`gap = max(0, required_years - resume_years)` is ℕ-truncated subtraction. -/
def exp_score_of (required_years resume_years : ℕ) : ℚ :=
  if required_years = 0 then W_EXPERIENCE
  else
    let gap := required_years - resume_years
    if gap = 0 then W_EXPERIENCE
    else if gap = 1 then W_EXPERIENCE * (3/4)
    else if gap = 2 then W_EXPERIENCE * (9/20)
    else if gap = 3 then W_EXPERIENCE * (1/5)
    else 0

/-- `exp_score` on the pipeline inputs. -/
def exp_score (inp : Inputs) : ℚ :=
  exp_score_of inp.required_years inp.resume_years

/-- The raw component sum rounded and clamped in lines 155–160. -/
def raw_total (inp : Inputs) : ℚ :=
  keyword_score inp + semantic_score inp + placement_score inp +
    structure_score inp + formatting_score inp + seniority_score inp +
    impact_score inp + education_score inp + contact_score inp + exp_score inp

/-- `final_score = max(0.0, min(100.0, round(..., 1)))`. -/
def final_score (inp : Inputs) : ℚ :=
  max 0 (min 100 (pyRound1 (raw_total inp)))

/-- Tier classification of Step 6. -/
def tier_of (score : ℚ) : String :=
  if 85 ≤ score then "excellent"
  else if 70 ≤ score then "good"
  else if 55 ≤ score then "fair"
  else if 40 ≤ score then "borderline"
  else "poor"

/-- Outlook sentence attached to each tier. -/
def outlook_of (score : ℚ) : String :=
  if 85 ≤ score then
    "Top-tier candidate. Exceeds ATS thresholds across all major systems."
  else if 70 ≤ score then
    "Strong candidate. Should pass most ATS filters with minor optimisation."
  else if 55 ≤ score then
    "Qualified candidate. Gaps present but passable with targeted improvements."
  else if 40 ≤ score then
    "Borderline candidate. Risk of auto-rejection in strict ATS systems."
  else
    "High rejection risk. Critical gaps detected. Immediate optimisation required."

/-- The `score_breakdown` dict of Step 11 (v5.0 key names); the `structure`
key is spelled `structureS` because `structure` is a Lean keyword. -/
structure Breakdown where
  keyword_overlap : ℚ
  keyword_placement : ℚ
  experience : ℚ
  education : ℚ
  formatting : ℚ
  contact : ℚ
  structureS : ℚ
  impact : ℚ
  seniority : ℚ
  deriving DecidableEq, Repr

/-- Lines 262–272: every reported component is rounded to one decimal, and
the placement entry is `round(min(placement_score + semantic_score, 20), 1)`. -/
def score_breakdown (inp : Inputs) : Breakdown where
  keyword_overlap := pyRound1 (keyword_score inp)
  keyword_placement := pyRound1 (min (placement_score inp + semantic_score inp) 20)
  experience := pyRound1 (exp_score inp)
  education := pyRound1 (education_score inp)
  formatting := pyRound1 (formatting_score inp)
  contact := pyRound1 (contact_score inp)
  structureS := pyRound1 (structure_score inp)
  impact := pyRound1 (impact_score inp)
  seniority := pyRound1 (seniority_score inp)

/-- The sum of the nine reported breakdown values. -/
def breakdown_sum (b : Breakdown) : ℚ :=
  b.keyword_overlap + b.keyword_placement + b.experience + b.education +
    b.formatting + b.contact + b.structureS + b.impact + b.seniority

/-- The nine unrounded component values that back the breakdown, in the same
order as `breakdown_sum` (placement and semantic blended, uncapped). -/
def unrounded_components_sum (inp : Inputs) : ℚ :=
  keyword_score inp + (placement_score inp + semantic_score inp) + exp_score inp +
    education_score inp + formatting_score inp + contact_score inp +
    structure_score inp + impact_score inp + seniority_score inp

/-- The maxima of the nine reported breakdown components: keyword 30,
placement 20 (placement 10 + semantic 10, capped at 20), experience 10,
education 10, formatting 2, contact 5, structure 3, impact 5, seniority 5. -/
def componentCeilings : List ℚ :=
  [30, 20, 10, 10, 2, 5, 3, 5, 5]

/-- The analysis result (fields whose values are produced verbatim by
external collaborators — density chart, audit messages, suggestions,
`jd_parsed` — are omitted; every field kept is the source's). -/
structure Result where
  score : ℚ
  tier : String
  outlook : String
  recent_hits : List String
  missing : List String
  score_breakdown : Breakdown
  deriving Repr

/-- `_generate_fallback_response()`: the fully-populated zero/"error" object. -/
def generate_fallback_response : Result where
  score := 0
  tier := "error"
  outlook := "Unable to analyse resume. Please check your inputs and try again."
  recent_hits := []
  missing := []
  score_breakdown := ⟨0, 0, 0, 0, 0, 0, 0, 0, 0⟩

/-- `run_analysis`: the whole body runs inside `try/except`, and any internal
exception (modelled by the `internal_failure` flag) returns the fallback
response instead of propagating. -/
def run_analysis (internal_failure : Bool) (inp : Inputs) : Result :=
  if internal_failure then generate_fallback_response
  else
    { score := final_score inp
      tier := tier_of (final_score inp)
      outlook := outlook_of (final_score inp)
      recent_hits := (effective inp).1
      missing := (effective inp).2.1
      score_breakdown := score_breakdown inp }

end Scorer

namespace MainApi

/-! Embedding of the input-validation block of `backend/main.py::get_score`
(lines 70–90), which runs before any scoring work. -/

open Util

/-- `MAX_TEXT_LENGTH = 50000`. -/
def MAX_TEXT_LENGTH : ℕ := 50000
/-- `MIN_RESUME_LENGTH = 100`. -/
def MIN_RESUME_LENGTH : ℕ := 100
/-- `MIN_JD_LENGTH = 50`. -/
def MIN_JD_LENGTH : ℕ := 50

/-- The validation cascade of `get_score`, in source order; each failing rule
raises a 400 with its own message (modelled as `Except.error`). -/
def get_score_validation (resume_text jd_text : String) : Except String Unit :=
  if allWhitespace resume_text then
    .error "Resume text cannot be empty."
  else if allWhitespace jd_text then
    .error "Job description cannot be empty."
  else if resume_text.length < MIN_RESUME_LENGTH then
    .error "Resume must be at least 100 characters."
  else if jd_text.length < MIN_JD_LENGTH then
    .error "Job description must be at least 50 characters."
  else if MAX_TEXT_LENGTH < resume_text.length then
    .error "Resume exceeds maximum length of 50000 characters."
  else if MAX_TEXT_LENGTH < jd_text.length then
    .error "Job description exceeds maximum length of 50000 characters."
  else if wordCount resume_text < 20 then
    .error "Resume must contain at least 20 words."
  else if wordCount jd_text < 10 then
    .error "Job description must contain at least 10 words."
  else .ok ()

end MainApi

namespace Claims

/-! Concrete inputs used by the claim theorems below. -/

/-- C1 scenario: 3 of 7 required skills matched by the extraction, exactly
one contact sub-check hit, no other signals, similarity 0, no experience
requirement. -/
def C1_input : Scorer.Inputs where
  hits := ["a", "b", "c"]
  missing := ["d", "e", "f", "g"]
  jd_required_skills := ["a", "b", "c", "d", "e", "f", "g"]
  spacy_resume_skills := []
  spacy_jd_skills := []
  similarity := 0
  placement_hit := false
  summary_hits := 0
  headings_hit := false
  dates_hit := false
  education_hit := false
  seniority_hit := false
  impact_hit := false
  impact_count := 0
  contact_hits := 1
  required_years := 0
  resume_years := 0

/-- C2 scenario: the extraction matched 4 of 5 required skills
(match rate exactly 80%). -/
def C2_input : Scorer.Inputs where
  hits := ["a", "b", "c", "d"]
  missing := ["e"]
  jd_required_skills := ["a", "b", "c", "d", "e"]
  spacy_resume_skills := []
  spacy_jd_skills := []
  similarity := 0
  placement_hit := false
  summary_hits := 0
  headings_hit := false
  dates_hit := false
  education_hit := false
  seniority_hit := false
  impact_hit := false
  impact_count := 0
  contact_hits := 0
  required_years := 0
  resume_years := 0

/-- C5 scenario: a resume with none of the degree keywords. -/
def C5_resume : String :=
  "python developer building web services with django and flask for client projects"

/-- C7 scenario: the AI extraction returned no matched and no missing skills,
while the spaCy fallback finds "python" on both sides; no other signals. -/
def C7_input : Scorer.Inputs where
  hits := []
  missing := []
  jd_required_skills := []
  spacy_resume_skills := ["python"]
  spacy_jd_skills := ["python"]
  similarity := 0
  placement_hit := false
  summary_hits := 0
  headings_hit := false
  dates_hit := false
  education_hit := false
  seniority_hit := false
  impact_hit := false
  impact_count := 0
  contact_hits := 0
  required_years := 0
  resume_years := 0

/-- C8 scenario: a 10-word resume repeating "redis" 5 times. -/
def C8_resume : String :=
  "redis redis redis redis redis developer with experience caching layers"

/-- C8 scenario: four required skills, none a substring of another, so the
top-3 central skills are the first three and "redis" is not exempt. -/
def C8_skills : List String :=
  ["python", "django", "flask", "redis"]

/-- C8 scenario: the word-boundary frequencies of the skills in `C8_resume`
("redis" occurs 5 times, the others 0). -/
def C8_freq : String → ℕ :=
  fun s => if s = "redis" then 5 else 0

/-- C8 witness scenario: a 14-word resume repeating "python" 13 times. -/
def C8_wresume : String :=
  "python python python python python python python python python python python python python stack"

/-- C8 witness scenario: frequency of "python" in `C8_wresume` is 13. -/
def C8_wfreq : String → ℕ :=
  fun s => if s = "python" then 13 else 0

/-- C9 witness: a resume passing every validation bound
(24 words, more than 100 characters). -/
def C9_resume : String :=
  "Experienced python developer with a strong background in web services data pipelines and cloud infrastructure projects delivered for many enterprise clients over the years"

/-- C9 witness: a job description passing every validation bound
(16 words, more than 50 characters). -/
def C9_jd : String :=
  "We are seeking a skilled python developer with five years of experience building scalable backend services"

end Claims

/-! ## Helper lemmas -/

namespace Util

theorem ratFloor_eq_floor (q : ℚ) : ratFloor q = ⌊q⌋ := by
  rw [ratFloor, Rat.floor_def]
  exact Int.fdiv_eq_ediv _ (by positivity)

theorem pyRound1_mono {a b : ℚ} (h : a ≤ b) : pyRound1 a ≤ pyRound1 b := by
  unfold pyRound1
  rw [ratFloor_eq_floor, ratFloor_eq_floor]
  have : (⌊a * 10 + 1/2⌋ : ℚ) ≤ (⌊b * 10 + 1/2⌋ : ℚ) := by
    exact_mod_cast Int.floor_le_floor (by linarith)
  linarith

theorem pyRound1_intCast (n : ℤ) : pyRound1 (n : ℚ) = n := by
  unfold pyRound1
  rw [ratFloor_eq_floor]
  have : ⌊(n : ℚ) * 10 + 1/2⌋ = n * 10 := by
    have h10 : ((n * 10 : ℤ) : ℚ) = (n : ℚ) * 10 := by push_cast; ring
    rw [← h10, Int.floor_int_add]
    norm_num
  rw [this]
  push_cast
  ring

theorem pyRound1_le_intCast {q : ℚ} {n : ℤ} (h : q ≤ (n : ℚ)) :
    pyRound1 q ≤ (n : ℚ) := by
  calc pyRound1 q ≤ pyRound1 (n : ℚ) := pyRound1_mono h
    _ = (n : ℚ) := pyRound1_intCast n

end Util

namespace Seniority

theorem processMatch_idem (now : DateYM) (acc : RangeAcc) (x : String × String) :
    processMatch now (processMatch now acc x) x = processMatch now acc x := by
  unfold processMatch
  by_cases h : acc.seen.contains (x.1 ++ "-" ++ x.2)
  · simp only [h, if_true]
  · simp only [h, Bool.false_eq_true, if_false]
    rcases hp : parseMonthYear x.1 with _ | sd
    · simp [h, hp]
    · rcases he : parseEndDate now x.2 with _ | ed
      · simp [h, hp, he]
      · by_cases hr : 2 ≤ monthsBetween sd ed ∧ monthsBetween sd ed ≤ 600
        · simp only [hr, if_true]
          have : ((x.1 ++ "-" ++ x.2) :: acc.seen).contains (x.1 ++ "-" ++ x.2) = true := by
            simp [List.contains_cons]
          simp [this]
        · simp [h, hp, he, hr]

end Seniority

/-! ## Claim theorems -/

/-- C4 counterexample: a resume whose experience section contains exactly the
range "Jan 2020 - Dec 2023" yields `years_from_dates = 3` (the months formula
gives (2023-2020)*12 + (12-1) = 47 and 47 // 12 = 3), not 4 as the claim
states. -/
theorem C4_counterexample :
    Seniority.parse_years_from_dates ⟨2026, 10⟩ [("Jan 2020", "Dec 2023")] = 3 ∧
      (3 : ℕ) ≠ 4 := by
  exact ⟨by decide, by decide⟩

/-- C4 (amended): date-range parsing contributes, for each matched range,
`months = (end.year-start.year)*12 + (end.month-start.month)`, deduplicates
ranges by their literal start/end text, discards any range whose months fall
outside [2, 600], and reports total years as floor(total months / 12); the
"Jan 2020 - Dec 2023" experience section yields `years_from_dates = 3`
(47 months, floored), not 4. -/
theorem C4_amended :
    Seniority.monthsBetween ⟨2020, 1⟩ ⟨2023, 12⟩ = 47 ∧
    (∀ now, Seniority.parse_years_from_dates now [("Jan 2020", "Dec 2023")] = 3) ∧
    (∀ now (x : String × String) (l : List (String × String)),
      Seniority.parse_years_from_dates now (x :: x :: l)
        = Seniority.parse_years_from_dates now (x :: l)) ∧
    (∀ now (acc : Seniority.RangeAcc) (s e : String) (sd ed : Seniority.DateYM),
      (s ++ "-" ++ e) ∉ acc.seen →
      Seniority.parseMonthYear s = some sd →
      Seniority.parseEndDate now e = some ed →
      2 ≤ Seniority.monthsBetween sd ed →
      Seniority.monthsBetween sd ed ≤ 600 →
      (Seniority.processMatch now acc (s, e)).totalMonths
        = acc.totalMonths + (Seniority.monthsBetween sd ed).toNat) ∧
    (∀ now (acc : Seniority.RangeAcc) (s e : String) (sd ed : Seniority.DateYM),
      Seniority.parseMonthYear s = some sd →
      Seniority.parseEndDate now e = some ed →
      ¬ (2 ≤ Seniority.monthsBetween sd ed ∧ Seniority.monthsBetween sd ed ≤ 600) →
      Seniority.processMatch now acc (s, e) = acc) ∧
    (∀ now ms, Seniority.parse_years_from_dates now ms
        = Seniority.totalMonthsOf now ms / 12) := by
  refine ⟨by decide, ?_, ?_, ?_, ?_, fun _ _ => rfl⟩
  · intro now
    have h1 : Seniority.parseEndDate now "Dec 2023" = some ⟨2023, 12⟩ := by
      rw [Seniority.parseEndDate, if_neg (by decide)]
      decide
    unfold Seniority.parse_years_from_dates Seniority.totalMonthsOf
    simp only [List.foldl_cons, List.foldl_nil]
    rw [Seniority.processMatch]
    simp only [h1]
    decide
  · intro now x l
    unfold Seniority.parse_years_from_dates Seniority.totalMonthsOf
    simp only [List.foldl_cons, Seniority.processMatch_idem]
  · intro now acc s e sd ed hseen hs he h2 h600
    rw [Seniority.processMatch]
    simp [hseen, hs, he, h2, h600]
  · intro now acc s e sd ed hs he hout
    rw [Seniority.processMatch]
    by_cases hseen : (s ++ "-" ++ e) ∈ acc.seen
    · simp [hseen]
    · simp [hseen, hs, he, hout]

/-- C4 witness: the month formula applied to a fresh in-range match
(Jan 2020 – Jan 2040, 240 months) and the discard of an out-of-range match
(Jan 2020 – Feb 2020, 1 month). -/
theorem C4_witness :
    (Seniority.processMatch ⟨2026, 10⟩ ⟨[], 0, []⟩ ("Jan 2020", "Jan 2040")).totalMonths
        = 240 ∧
    Seniority.processMatch ⟨2026, 10⟩ ⟨[], 0, []⟩ ("Jan 2020", "Feb 2020") = ⟨[], 0, []⟩ := by
  constructor
  · have h := C4_amended.2.2.2.1 ⟨2026, 10⟩ ⟨[], 0, []⟩ "Jan 2020" "Jan 2040"
      ⟨2020, 1⟩ ⟨2040, 1⟩ (by decide) (by decide) (by decide) (by decide) (by decide)
    simpa using h
  · exact C4_amended.2.2.2.2.1 ⟨2026, 10⟩ ⟨[], 0, []⟩ "Jan 2020" "Feb 2020"
      ⟨2020, 1⟩ ⟨2020, 2⟩ (by decide) (by decide) (by decide)

/-- C2 counterexample: at a match rate of exactly 80% (4 of 5) the claim's
piecewise-linear formula gives 26, but `score_keyword_match` returns the hard
gate value 40 and the pipeline keyword component returns the linear value 24;
with zero required skills the claim predicts neutral credit 20, but
`score_keyword_match` returns 0. -/
theorem C2_counterexample :
    (AtsScorer.score_keyword_match ["a", "b", "c", "d"] ["a", "b", "c", "d", "e"]).score = 40 ∧
    (40 : ℚ) ≠ 26 ∧
    (AtsScorer.score_keyword_match [] []).score = 0 ∧ (0 : ℚ) ≠ 20 ∧
    Scorer.keyword_score Claims.C2_input = 24 ∧ (24 : ℚ) ≠ 26 := by
  refine ⟨?_, by norm_num, ?_, by norm_num, ?_, by norm_num⟩
  · norm_num [AtsScorer.score_keyword_match]
  · norm_num [AtsScorer.score_keyword_match]
  · have he : (Scorer.effective Claims.C2_input).1.length = 4 := by decide
    have ht : Scorer.total_jd Claims.C2_input = 5 := by decide
    rw [Scorer.keyword_score, he, ht]
    norm_num [Scorer.pct, Scorer.W_KEYWORD_OVERLAP]

/-- C2 (amended): `score_keyword_match` is a discontinuous step function of
the match rate — 40 for rate ≥ 0.8, 30 for [0.6, 0.8), 20 for [0.4, 0.6),
10 below 0.4 — and returns 0 (not neutral 20/30 credit) when the job
description has zero required skills; the pipeline's keyword component is
instead the linear `match_rate * 30`. -/
theorem C2_amended (matched required : List String) :
    (required.length = 0 → (AtsScorer.score_keyword_match matched required).score = 0) ∧
    (required.length ≠ 0 →
      (((AtsScorer.score_keyword_match matched required).score = 40 ↔
        (4:ℚ)/5 ≤ (matched.length : ℚ) / (required.length : ℚ)) ∧
      ((AtsScorer.score_keyword_match matched required).score = 30 ↔
        ((3:ℚ)/5 ≤ (matched.length : ℚ) / (required.length : ℚ) ∧
          (matched.length : ℚ) / (required.length : ℚ) < 4/5)) ∧
      ((AtsScorer.score_keyword_match matched required).score = 20 ↔
        ((2:ℚ)/5 ≤ (matched.length : ℚ) / (required.length : ℚ) ∧
          (matched.length : ℚ) / (required.length : ℚ) < 3/5)) ∧
      ((AtsScorer.score_keyword_match matched required).score = 10 ↔
        (matched.length : ℚ) / (required.length : ℚ) < 2/5))) ∧
    (AtsScorer.score_keyword_match matched required).score ∈ ([0, 10, 20, 30, 40] : List ℚ) := by
  unfold AtsScorer.score_keyword_match
  by_cases h : required.length = 0
  · simp [h]
  · refine ⟨fun hc => absurd hc h, fun _ => ?_, ?_⟩
    · simp only [h, if_false]
      split_ifs with h1 h2 h3
      · refine ⟨⟨fun _ => h1, fun _ => rfl⟩, ?_, ?_, ?_⟩
        · exact ⟨fun hx => by norm_num at hx, fun hx => absurd h1 (not_le.mpr hx.2)⟩
        · exact ⟨fun hx => by norm_num at hx,
            fun hx => absurd h1 (not_le.mpr (lt_trans hx.2 (by norm_num)))⟩
        · exact ⟨fun hx => by norm_num at hx,
            fun hx => absurd h1 (not_le.mpr (lt_of_lt_of_le hx (by norm_num)))⟩
      · refine ⟨?_, ⟨fun _ => ⟨h2, not_le.mp h1⟩, fun _ => rfl⟩, ?_, ?_⟩
        · exact ⟨fun hx => by norm_num at hx, fun hx => absurd hx h1⟩
        · exact ⟨fun hx => by norm_num at hx, fun hx => absurd h2 (not_le.mpr hx.2)⟩
        · exact ⟨fun hx => by norm_num at hx,
            fun hx => absurd h2 (not_le.mpr (lt_of_lt_of_le hx (by norm_num)))⟩
      · refine ⟨?_, ?_, ⟨fun _ => ⟨h3, not_le.mp h2⟩, fun _ => rfl⟩, ?_⟩
        · exact ⟨fun hx => by norm_num at hx, fun hx => absurd hx h1⟩
        · exact ⟨fun hx => by norm_num at hx, fun hx => absurd hx.1 h2⟩
        · exact ⟨fun hx => by norm_num at hx, fun hx => absurd h3 (not_le.mpr hx)⟩
      · refine ⟨?_, ?_, ?_, ⟨fun _ => not_le.mp h3, fun _ => rfl⟩⟩
        · exact ⟨fun hx => by norm_num at hx, fun hx => absurd hx h1⟩
        · exact ⟨fun hx => by norm_num at hx, fun hx => absurd hx.1 h2⟩
        · exact ⟨fun hx => by norm_num at hx, fun hx => absurd hx.1 h3⟩
    · simp only [h, if_false, List.mem_cons, List.not_mem_nil]
      split_ifs <;> norm_num

/-- C2 witness: the amended band characterization evaluated at 1 matched of
2 required (rate 50%, band [0.4, 0.6) → 20). -/
theorem C2_witness :
    (AtsScorer.score_keyword_match ["a"] ["a", "b"]).score = 20 := by
  have h := (C2_amended ["a"] ["a", "b"]).2.1 (by norm_num)
  exact h.2.2.1.mpr (by norm_num)

/-- C5 counterexample: for a job description that does not require a degree
and a resume with no degree keyword the claim predicts an education score of
10, but `check_education` returns "miss" whenever no degree keyword is
present — regardless of the requirement — so the component is 0. -/
theorem C5_counterexample :
    Diagnostics.has_edu Claims.C5_resume = false ∧
    Diagnostics.check_education Claims.C5_resume false false = false ∧
    Scorer.education_score_of (Diagnostics.check_education Claims.C5_resume false false) = 0 ∧
    (0 : ℚ) ≠ 10 := by
  have h : Diagnostics.check_education Claims.C5_resume false false = false := by decide
  refine ⟨by decide, h, ?_, by norm_num⟩
  rw [h]
  simp [Scorer.education_score_of]

/-- C5 (amended): the education component is binary — always 0 or 10 — but
it is 0 exactly when no degree keyword is present in the resume; the
education status equals `has_edu` outright, so whether the job description
requires or prefers a degree affects only the rationale message, never the
score. -/
theorem C5_amended (resume : String) (edu_required edu_preferred : Bool) :
    Diagnostics.check_education resume edu_required edu_preferred
      = Diagnostics.has_edu resume ∧
    Scorer.education_score_of (Diagnostics.check_education resume edu_required edu_preferred)
      ∈ ([0, 10] : List ℚ) ∧
    (Scorer.education_score_of (Diagnostics.check_education resume edu_required edu_preferred) = 0
      ↔ Diagnostics.has_edu resume = false) := by
  have hs : Diagnostics.check_education resume edu_required edu_preferred
      = Diagnostics.has_edu resume := by
    unfold Diagnostics.check_education
    by_cases h : Diagnostics.has_edu resume <;>
      by_cases r : edu_required <;> by_cases p : edu_preferred <;> simp [h, r, p]
  refine ⟨hs, ?_, ?_⟩
  · rw [hs]
    by_cases h : Diagnostics.has_edu resume <;>
      simp [h, Scorer.education_score_of, Scorer.W_EDUCATION]
  · rw [hs]
    by_cases h : Diagnostics.has_edu resume <;>
      simp [h, Scorer.education_score_of, Scorer.W_EDUCATION]

/-- C8 counterexample: `run_analysis` calls `detect_keyword_stuffing` with
`threshold=5`, so a non-exempt skill occurring 5 times in a short resume is
flagged even though the claim's adaptive threshold `max(6, word_count/120)`
says it should not be ("redis" at frequency 5 in a 10-word resume). -/
theorem C8_counterexample :
    "redis" ∈ Skills.detect_keyword_stuffing Claims.C8_resume Claims.C8_skills Claims.C8_freq 5 ∧
    ¬ Skills.claim_stuffing_flag Claims.C8_resume Claims.C8_skills Claims.C8_freq "redis" := by
  exact ⟨by decide, by decide⟩

/-- C8 (amended): `detect_keyword_stuffing` flags a skill exactly when its
frequency reaches `max(threshold, word_count // 120)` — where the pipeline
passes `threshold=5`, overriding the function's default of 6 — except that
the top-3 most central skills are exempt unless their frequency exceeds the
absolute ceiling of 12; consequently a skill appearing 13 times is flagged
even when top-3 central (for any resume under 1680 words, including the
800-word scenario). -/
theorem C8_amended (resume : String) (skills : List String) (freq : String → ℕ)
    (threshold : ℕ) (skill : String) :
    (skill ∈ Skills.detect_keyword_stuffing resume skills freq threshold ↔
      (skill ∈ skills ∧ max threshold (Util.wordCount resume / 120) ≤ freq skill ∧
        (skill ∈ Skills.top3central skills → 12 < freq skill))) ∧
    (skill ∈ skills → freq skill = 13 → Util.wordCount resume / 120 ≤ 13 →
      skill ∈ Skills.detect_keyword_stuffing resume skills freq 5) := by
  have hiff : ∀ t : ℕ, skill ∈ Skills.detect_keyword_stuffing resume skills freq t ↔
      (skill ∈ skills ∧ max t (Util.wordCount resume / 120) ≤ freq skill ∧
        (skill ∈ Skills.top3central skills → 12 < freq skill)) := by
    intro t
    unfold Skills.detect_keyword_stuffing
    by_cases hl : skills.length > 0
    · rw [if_pos hl, List.mem_filter]
      simp only [Bool.and_eq_true, Bool.or_eq_true, decide_eq_true_eq,
        Bool.not_eq_true', List.elem_eq_mem, decide_eq_false_iff_not]
      constructor
      · rintro ⟨hmem, hth, hpr⟩
        exact ⟨hmem, hth, fun hp => hpr.resolve_left (fun hn => hn hp)⟩
      · rintro ⟨hmem, hth, hpr⟩
        refine ⟨hmem, hth, ?_⟩
        by_cases hp : skill ∈ Skills.top3central skills
        · exact Or.inr (hpr hp)
        · exact Or.inl hp
    · rw [if_neg hl]
      constructor
      · intro hmem
        rw [List.mem_filter] at hmem
        have : skills = [] := by
          cases skills with
          | nil => rfl
          | cons a l => exact absurd (by simp) hl
        simp [this] at hmem
      · rintro ⟨hmem, -, -⟩
        have : skills = [] := by
          cases skills with
          | nil => rfl
          | cons a l => exact absurd (by simp) hl
        simp [this] at hmem
  refine ⟨hiff threshold, ?_⟩
  intro hmem hfreq hwc
  exact (hiff 5).mpr ⟨hmem, by omega, fun _ => by omega⟩

/-- C8 witness: "python" at frequency 13 in a 14-word resume is flagged by
the pipeline call even though it is the (only, hence top-3 central) primary
skill. -/
theorem C8_witness :
    "python" ∈ Skills.detect_keyword_stuffing Claims.C8_wresume ["python"] Claims.C8_wfreq 5 := by
  exact (C8_amended Claims.C8_wresume ["python"] Claims.C8_wfreq 5 "python").2
    (by decide) (by decide) (by decide)

/-- C10: the resume-level classifier of `score_seniority_match` only ever
produces "senior", "entry" or "mid" (never "management"), so for every
resume text a job description at seniority level "management" scores exactly
1 — the 5-point equal-level, 4-point overqualified and 2-point underqualified
outcomes are unreachable. -/
theorem C10_theorem (resume_text : String) :
    (AtsScorer.score_seniority_match resume_text "management").resume_level
      ∈ (["senior", "entry", "mid"] : List String) ∧
    (AtsScorer.score_seniority_match resume_text "management").jd_level = "management" ∧
    (AtsScorer.score_seniority_match resume_text "management").score = 1 ∧
    (AtsScorer.score_seniority_match resume_text "management").score ≠ 5 ∧
    (AtsScorer.score_seniority_match resume_text "management").score ≠ 4 ∧
    (AtsScorer.score_seniority_match resume_text "management").score ≠ 2 := by
  have hm : Util.lowerStr "management" = "management" := by decide
  by_cases h1 : 3 ≤ AtsScorer.countIndicators (Util.lowerStr resume_text)
      AtsScorer.senior_indicators <;>
    by_cases h2 : 2 ≤ AtsScorer.countIndicators (Util.lowerStr resume_text)
        AtsScorer.entry_indicators <;>
    simp [AtsScorer.score_seniority_match, h1, h2, hm]

/-- C6: experience reconciliation reports `total_years = max(explicit,
date-derived)` and flags a mismatch exactly when both are positive and their
absolute difference exceeds the seniority-scaled tolerance (1 year when the
explicit years are under 5, else 2); explicit 5 vs date-derived 8 (diff 3)
is flagged, while differences of 1 (7 vs 8, 4 vs 5) are not. -/
theorem C6_theorem (yt yd : ℕ) :
    (Seniority.calculate_total_experience yt yd).total_years = max yt yd ∧
    ((Seniority.calculate_total_experience yt yd).has_mismatch = true ↔
      (0 < yt ∧ 0 < yd ∧ (if yt < 5 then 1 else 2) < ((yt : ℤ) - yd).natAbs)) ∧
    (Seniority.calculate_total_experience 5 8).has_mismatch = true ∧
    (Seniority.calculate_total_experience 7 8).has_mismatch = false ∧
    (Seniority.calculate_total_experience 4 5).has_mismatch = false := by
  refine ⟨rfl, ?_, by decide, by decide, by decide⟩
  unfold Seniority.calculate_total_experience
  by_cases h : 0 < yt ∧ 0 < yd
  · simp [h]
  · simp [h]
    intro h1 h2
    exact absurd ⟨h1, h2⟩ h

/-- C3 counterexample: with 2 years required and 1 reconciled year the
pipeline experience component is 7.5, which is not in {0, 3, 7, 11, 15};
with no requirement it is 10, not 15; and `score_experience_match` gives 10
(not 11) at gap 1. -/
theorem C3_counterexample :
    Scorer.exp_score_of 2 1 = 15/2 ∧ (15/2 : ℚ) ∉ ([0, 3, 7, 11, 15] : List ℚ) ∧
    Scorer.exp_score_of 0 5 = 10 ∧ (10 : ℚ) ≠ 15 ∧
    AtsScorer.score_experience_match 1 2 = 10 ∧ (10 : ℚ) ≠ 11 := by
  refine ⟨?_, ?_, ?_, by norm_num, ?_, by norm_num⟩
  · norm_num [Scorer.exp_score_of, Scorer.W_EXPERIENCE]
  · simp only [List.mem_cons, List.not_mem_nil]
    norm_num
  · norm_num [Scorer.exp_score_of, Scorer.W_EXPERIENCE]
  · norm_num [AtsScorer.score_experience_match]

/-- C3 (amended): the pipeline experience component takes values in
{0, 2, 4.5, 7.5, 10}, determined by `gap = max(0, required - reconciled)`
(gap 0 → 10, 1 → 7.5, 2 → 4.5, 3 → 2, ≥4 → 0), and equals 10 when
`required_years = 0`; the unused `ats_scorer.score_experience_match` takes
values in {0, 5, 10, 15} and gives 15 when `required_years = 0`. -/
theorem C3_amended (required resume : ℕ) :
    (required = 0 → Scorer.exp_score_of required resume = 10) ∧
    Scorer.exp_score_of required resume ∈ ([0, 2, 9/2, 15/2, 10] : List ℚ) ∧
    (0 < required → Scorer.exp_score_of required resume =
      (if required ≤ resume then 10 else if required - resume = 1 then 15/2
       else if required - resume = 2 then 9/2
       else if required - resume = 3 then 2 else 0)) ∧
    (required = 0 → AtsScorer.score_experience_match resume required = 15) ∧
    AtsScorer.score_experience_match resume required ∈ ([0, 5, 10, 15] : List ℚ) := by
  refine ⟨?_, ?_, ?_, ?_, ?_⟩
  · intro h
    simp [Scorer.exp_score_of, h, Scorer.W_EXPERIENCE]
  · unfold Scorer.exp_score_of
    simp only [List.mem_cons, List.not_mem_nil]
    split_ifs <;> norm_num [Scorer.W_EXPERIENCE]
  · intro h
    unfold Scorer.exp_score_of
    rw [if_neg (by omega)]
    by_cases h0 : required ≤ resume
    · have hg : required - resume = 0 := by omega
      simp [hg, h0, Scorer.W_EXPERIENCE]
    · have hg : ¬ (required - resume = 0) := by omega
      rw [if_neg hg, if_neg h0]
      split_ifs <;> norm_num [Scorer.W_EXPERIENCE]
  · intro h
    simp [AtsScorer.score_experience_match, h]
  · unfold AtsScorer.score_experience_match
    simp only [List.mem_cons, List.not_mem_nil]
    split_ifs <;> norm_num

/-- C3 witness: the amended characterization evaluated at concrete inputs
(no requirement → 10 and 15; required 6 with 2 years → gap 4 → 0). -/
theorem C3_witness :
    Scorer.exp_score_of 0 7 = 10 ∧
    AtsScorer.score_experience_match 7 0 = 15 ∧
    Scorer.exp_score_of 6 2 = 0 := by
  refine ⟨(C3_amended 0 7).1 rfl, (C3_amended 0 7).2.2.2.1 rfl, ?_⟩
  have h := (C3_amended 6 2).2.2.1 (by norm_num)
  rw [h]
  norm_num

set_option maxHeartbeats 1000000 in
/-- C9: the analysis entry point rejects, before any scoring work and each
with its own specific reason string, requests whose resume or job
description is empty after trimming, whose resume is under 100 characters or
20 words, whose job description is under 50 characters or 10 words, or
where either text exceeds 50,000 characters; inputs satisfying all bounds
pass validation. -/
theorem C9_theorem (resume jd : String) :
    (MainApi.get_score_validation resume jd = Except.ok () ↔
      (Util.allWhitespace resume = false ∧ Util.allWhitespace jd = false ∧
       MainApi.MIN_RESUME_LENGTH ≤ resume.length ∧ MainApi.MIN_JD_LENGTH ≤ jd.length ∧
       resume.length ≤ MainApi.MAX_TEXT_LENGTH ∧ jd.length ≤ MainApi.MAX_TEXT_LENGTH ∧
       20 ≤ Util.wordCount resume ∧ 10 ≤ Util.wordCount jd)) ∧
    (Util.allWhitespace resume = true →
      MainApi.get_score_validation resume jd = Except.error "Resume text cannot be empty.") ∧
    (Util.allWhitespace resume = false → Util.allWhitespace jd = true →
      MainApi.get_score_validation resume jd = Except.error "Job description cannot be empty.") ∧
    (Util.allWhitespace resume = false → Util.allWhitespace jd = false →
      resume.length < MainApi.MIN_RESUME_LENGTH →
      MainApi.get_score_validation resume jd = Except.error "Resume must be at least 100 characters.") ∧
    (Util.allWhitespace resume = false → Util.allWhitespace jd = false →
      MainApi.MIN_RESUME_LENGTH ≤ resume.length → jd.length < MainApi.MIN_JD_LENGTH →
      MainApi.get_score_validation resume jd
        = Except.error "Job description must be at least 50 characters.") ∧
    (Util.allWhitespace resume = false → Util.allWhitespace jd = false →
      MainApi.MIN_RESUME_LENGTH ≤ resume.length → MainApi.MIN_JD_LENGTH ≤ jd.length →
      MainApi.MAX_TEXT_LENGTH < resume.length →
      MainApi.get_score_validation resume jd
        = Except.error "Resume exceeds maximum length of 50000 characters.") ∧
    (Util.allWhitespace resume = false → Util.allWhitespace jd = false →
      MainApi.MIN_RESUME_LENGTH ≤ resume.length → MainApi.MIN_JD_LENGTH ≤ jd.length →
      resume.length ≤ MainApi.MAX_TEXT_LENGTH → MainApi.MAX_TEXT_LENGTH < jd.length →
      MainApi.get_score_validation resume jd
        = Except.error "Job description exceeds maximum length of 50000 characters.") ∧
    (Util.allWhitespace resume = false → Util.allWhitespace jd = false →
      MainApi.MIN_RESUME_LENGTH ≤ resume.length → MainApi.MIN_JD_LENGTH ≤ jd.length →
      resume.length ≤ MainApi.MAX_TEXT_LENGTH → jd.length ≤ MainApi.MAX_TEXT_LENGTH →
      Util.wordCount resume < 20 →
      MainApi.get_score_validation resume jd
        = Except.error "Resume must contain at least 20 words.") ∧
    (Util.allWhitespace resume = false → Util.allWhitespace jd = false →
      MainApi.MIN_RESUME_LENGTH ≤ resume.length → MainApi.MIN_JD_LENGTH ≤ jd.length →
      resume.length ≤ MainApi.MAX_TEXT_LENGTH → jd.length ≤ MainApi.MAX_TEXT_LENGTH →
      20 ≤ Util.wordCount resume → Util.wordCount jd < 10 →
      MainApi.get_score_validation resume jd
        = Except.error "Job description must contain at least 10 words.") := by
  simp only [MainApi.get_score_validation, MainApi.MIN_RESUME_LENGTH,
    MainApi.MIN_JD_LENGTH, MainApi.MAX_TEXT_LENGTH]
  refine ⟨?_, ?_, ?_, ?_, ?_, ?_, ?_, ?_, ?_⟩
  · constructor
    · intro h
      split_ifs at h with h1 h2 h3 h4 h5 h6 h7 h8
      all_goals simp at h
      exact ⟨by simpa using h1, by simpa using h2, by omega, by omega, by omega,
        by omega, by omega, by omega⟩
    · rintro ⟨h1, h2, h3, h4, h5, h6, h7, h8⟩
      rw [if_neg (by simp [h1]), if_neg (by simp [h2]), if_neg (by omega),
        if_neg (by omega), if_neg (by omega), if_neg (by omega), if_neg (by omega),
        if_neg (by omega)]
  · intro h1
    rw [if_pos h1]
  · intro h1 h2
    rw [if_neg (by simp [h1]), if_pos h2]
  · intro h1 h2 h3
    rw [if_neg (by simp [h1]), if_neg (by simp [h2]), if_pos h3]
  · intro h1 h2 h3 h4
    rw [if_neg (by simp [h1]), if_neg (by simp [h2]), if_neg (by omega), if_pos h4]
  · intro h1 h2 h3 h4 h5
    rw [if_neg (by simp [h1]), if_neg (by simp [h2]), if_neg (by omega),
      if_neg (by omega), if_pos h5]
  · intro h1 h2 h3 h4 h5 h6
    rw [if_neg (by simp [h1]), if_neg (by simp [h2]), if_neg (by omega),
      if_neg (by omega), if_neg (by omega), if_pos h6]
  · intro h1 h2 h3 h4 h5 h6 h7
    rw [if_neg (by simp [h1]), if_neg (by simp [h2]), if_neg (by omega),
      if_neg (by omega), if_neg (by omega), if_neg (by omega), if_pos h7]
  · intro h1 h2 h3 h4 h5 h6 h7 h8
    rw [if_neg (by simp [h1]), if_neg (by simp [h2]), if_neg (by omega),
      if_neg (by omega), if_neg (by omega), if_neg (by omega), if_neg (by omega),
      if_pos h8]

set_option maxRecDepth 4000 in
/-- C9 witness: a concrete resume/job-description pair satisfying every
bound passes validation. -/
theorem C9_witness :
    MainApi.get_score_validation Claims.C9_resume Claims.C9_jd = Except.ok () := by
  exact (C9_theorem Claims.C9_resume Claims.C9_jd).1.mpr (by decide)

/-- C7 counterexample: when the extraction is totally empty (matched and
missing both empty) the aggregator does NOT short-circuit to the zero-score
error response: it substitutes the spaCy fallback extraction and continues,
here producing score 41.5 and tier "borderline" instead of 0/"error". -/
theorem C7_counterexample :
    Claims.C7_input.hits = [] ∧ Claims.C7_input.missing = [] ∧
    (Scorer.run_analysis false Claims.C7_input).score = 83/2 ∧
    (Scorer.run_analysis false Claims.C7_input).tier = "borderline" ∧
    (Scorer.run_analysis false Claims.C7_input).score ≠ Scorer.generate_fallback_response.score ∧
    (Scorer.run_analysis false Claims.C7_input).tier ≠ Scorer.generate_fallback_response.tier := by
  have he : (Scorer.effective Claims.C7_input).1.length = 1 := by decide
  have ht : Scorer.total_jd Claims.C7_input = 1 := by decide
  have hraw : Scorer.raw_total Claims.C7_input = 83/2 := by
    rw [Scorer.raw_total, Scorer.keyword_score, he, ht]
    norm_num [Scorer.semantic_score, Scorer.placement_score, Scorer.structure_score,
      Scorer.formatting_score, Scorer.seniority_score, Scorer.impact_score,
      Scorer.education_score, Scorer.education_score_of, Scorer.contact_score,
      Scorer.exp_score, Scorer.exp_score_of, Scorer.pct,
      Scorer.W_KEYWORD_OVERLAP, Scorer.W_SEMANTIC, Scorer.W_PLACEMENT,
      Scorer.W_EXPERIENCE, Scorer.W_EDUCATION, Scorer.W_STRUCTURE,
      Scorer.W_FORMATTING, Scorer.W_IMPACT, Scorer.W_CONTACT, Scorer.W_SENIORITY,
      Claims.C7_input]
  have hfs : Scorer.final_score Claims.C7_input = 83/2 := by
    rw [Scorer.final_score, hraw]
    norm_num [Util.pyRound1, Util.ratFloor_eq_floor]
  have hsc : (Scorer.run_analysis false Claims.C7_input).score
      = Scorer.final_score Claims.C7_input := rfl
  have htr : (Scorer.run_analysis false Claims.C7_input).tier
      = Scorer.tier_of (Scorer.final_score Claims.C7_input) := rfl
  refine ⟨rfl, rfl, by rw [hsc, hfs], ?_, ?_, ?_⟩
  · rw [htr, hfs, Scorer.tier_of]
    norm_num
  · rw [hsc, hfs]
    norm_num [Scorer.generate_fallback_response]
  · rw [htr, hfs, Scorer.tier_of]
    norm_num [Scorer.generate_fallback_response]
    decide

/-- C7 (amended): an extraction with both skill lists empty triggers the
deterministic spaCy fallback extraction and scoring continues normally;
only an internal exception short-circuits `run_analysis`, which then
returns the fully-populated zero-score/"error"-tier fallback object
(score 0, tier "error", all-zero breakdown) rather than propagating the
exception to the caller. -/
theorem C7_amended (inp : Scorer.Inputs) :
    Scorer.run_analysis true inp = Scorer.generate_fallback_response ∧
    Scorer.generate_fallback_response.score = 0 ∧
    Scorer.generate_fallback_response.tier = "error" ∧
    Scorer.breakdown_sum Scorer.generate_fallback_response.score_breakdown = 0 ∧
    (inp.hits = [] → inp.missing = [] →
      ((Scorer.run_analysis false inp).recent_hits
        = inp.spacy_jd_skills.eraseDups.filter (fun s => inp.spacy_resume_skills.contains s) ∧
      (Scorer.run_analysis false inp).score = Scorer.final_score inp ∧
      (Scorer.run_analysis false inp).tier = Scorer.tier_of (Scorer.final_score inp))) := by
  refine ⟨rfl, rfl, rfl,
    by norm_num [Scorer.breakdown_sum, Scorer.generate_fallback_response], ?_⟩
  intro h1 h2
  refine ⟨?_, rfl, rfl⟩
  have : (Scorer.run_analysis false inp).recent_hits = (Scorer.effective inp).1 := rfl
  rw [this, Scorer.effective, if_pos ⟨h1, h2⟩]

/-- C7 witness: the amended statement at the concrete empty-extraction
input — the failure path yields tier "error", the non-failure path scores
the spaCy-derived hits. -/
theorem C7_witness :
    (Scorer.run_analysis true Claims.C7_input).tier = "error" ∧
    (Scorer.run_analysis false Claims.C7_input).recent_hits = ["python"] := by
  have h := C7_amended Claims.C7_input
  refine ⟨by rw [h.1]; exact h.2.2.1, ?_⟩
  have h5 := h.2.2.2.2 rfl rfl
  rw [h5.1]
  decide

/-- C1 counterexample: at a concrete input (3 of 7 skills matched, one
contact sub-check hit, no other signals) the nine reported breakdown values
sum to 26.1 while the final score is 26.0 — each breakdown entry is rounded
separately, so their sum need not equal the final score; moreover the nine
component ceilings sum to 90, not 100. -/
theorem C1_counterexample :
    Scorer.breakdown_sum (Scorer.score_breakdown Claims.C1_input)
        ≠ (Scorer.run_analysis false Claims.C1_input).score ∧
    Scorer.breakdown_sum (Scorer.score_breakdown Claims.C1_input) = 261/10 ∧
    (Scorer.run_analysis false Claims.C1_input).score = 26 ∧
    Scorer.componentCeilings.sum = 90 ∧ (90 : ℚ) ≠ 100 := by
  have he : (Scorer.effective Claims.C1_input).1.length = 3 := by decide
  have ht : Scorer.total_jd Claims.C1_input = 7 := by decide
  have hbs : Scorer.breakdown_sum (Scorer.score_breakdown Claims.C1_input) = 261/10 := by
    rw [Scorer.breakdown_sum, Scorer.score_breakdown, Scorer.keyword_score, he, ht]
    norm_num [Scorer.semantic_score, Scorer.placement_score, Scorer.structure_score,
      Scorer.formatting_score, Scorer.seniority_score, Scorer.impact_score,
      Scorer.education_score, Scorer.education_score_of, Scorer.contact_score,
      Scorer.exp_score, Scorer.exp_score_of, Scorer.pct,
      Scorer.W_KEYWORD_OVERLAP, Scorer.W_SEMANTIC, Scorer.W_PLACEMENT,
      Scorer.W_EXPERIENCE, Scorer.W_EDUCATION, Scorer.W_STRUCTURE,
      Scorer.W_FORMATTING, Scorer.W_IMPACT, Scorer.W_CONTACT, Scorer.W_SENIORITY,
      Claims.C1_input, Util.pyRound1, Util.ratFloor_eq_floor]
  have hraw : Scorer.raw_total Claims.C1_input = 1093/42 := by
    rw [Scorer.raw_total, Scorer.keyword_score, he, ht]
    norm_num [Scorer.semantic_score, Scorer.placement_score, Scorer.structure_score,
      Scorer.formatting_score, Scorer.seniority_score, Scorer.impact_score,
      Scorer.education_score, Scorer.education_score_of, Scorer.contact_score,
      Scorer.exp_score, Scorer.exp_score_of, Scorer.pct,
      Scorer.W_KEYWORD_OVERLAP, Scorer.W_SEMANTIC, Scorer.W_PLACEMENT,
      Scorer.W_EXPERIENCE, Scorer.W_EDUCATION, Scorer.W_STRUCTURE,
      Scorer.W_FORMATTING, Scorer.W_IMPACT, Scorer.W_CONTACT, Scorer.W_SENIORITY,
      Claims.C1_input]
  have hsc : (Scorer.run_analysis false Claims.C1_input).score
      = Scorer.final_score Claims.C1_input := rfl
  have hfs : Scorer.final_score Claims.C1_input = 26 := by
    rw [Scorer.final_score, hraw]
    norm_num [Util.pyRound1, Util.ratFloor_eq_floor]
  refine ⟨?_, hbs, by rw [hsc, hfs], ?_, by norm_num⟩
  · rw [hbs, hsc, hfs]
    norm_num
  · norm_num [Scorer.componentCeilings]

/-- C1 (amended): the final score is the sum of the ten raw component scores
(semantic similarity is a tenth component, blended into the reported
placement entry), rounded to one decimal and clamped to [0, 100].  The ten
weight constants sum to 90 — not 100, despite the source comment "sum to
100" — and the nine reported components' ceilings also sum to 90 (keyword
30, placement 20 capped, experience 10, education 10, formatting 2, contact
5, structure 3, impact 5, seniority 5).  The reported breakdown values are
individually rounded, so their sum can differ from the final score by
rounding; unrounded, the nine blended components sum exactly to the raw
total. -/
theorem C1_amended (inp : Scorer.Inputs) (hc : inp.contact_hits ≤ 3) :
    (Scorer.run_analysis false inp).score
        = max 0 (min 100 (Util.pyRound1 (Scorer.raw_total inp))) ∧
    Scorer.W_KEYWORD_OVERLAP + Scorer.W_SEMANTIC + Scorer.W_PLACEMENT +
      Scorer.W_EXPERIENCE + Scorer.W_EDUCATION + Scorer.W_STRUCTURE +
      Scorer.W_FORMATTING + Scorer.W_IMPACT + Scorer.W_CONTACT + Scorer.W_SENIORITY = 90 ∧
    Scorer.componentCeilings.sum = 90 ∧
    Scorer.raw_total inp = Scorer.unrounded_components_sum inp ∧
    (Scorer.score_breakdown inp).keyword_overlap ≤ 30 ∧
    (Scorer.score_breakdown inp).keyword_placement ≤ 20 ∧
    (Scorer.score_breakdown inp).experience ≤ 10 ∧
    (Scorer.score_breakdown inp).education ≤ 10 ∧
    (Scorer.score_breakdown inp).formatting ≤ 2 ∧
    (Scorer.score_breakdown inp).contact ≤ 5 ∧
    (Scorer.score_breakdown inp).structureS ≤ 3 ∧
    (Scorer.score_breakdown inp).impact ≤ 5 ∧
    (Scorer.score_breakdown inp).seniority ≤ 5 := by
  have hb : ∀ (q : ℚ) (n : ℤ), q ≤ (n : ℚ) → Util.pyRound1 q ≤ (n : ℚ) :=
    fun q n h => Util.pyRound1_le_intCast h
  have hkw : Scorer.keyword_score inp ≤ ((30 : ℤ) : ℚ) := by
    unfold Scorer.keyword_score Scorer.pct
    have h1 : (Scorer.effective inp).1.length ≤ Scorer.total_jd inp := by
      unfold Scorer.total_jd
      omega
    have h2 : Scorer.total_jd inp ≠ 0 := by
      unfold Scorer.total_jd
      omega
    rw [if_pos h2]
    have hpos : (0 : ℚ) < (Scorer.total_jd inp : ℚ) := by
      exact_mod_cast Nat.pos_of_ne_zero h2
    have hr : ((Scorer.effective inp).1.length : ℚ) / (Scorer.total_jd inp : ℚ) ≤ 1 :=
      (div_le_one hpos).mpr (by exact_mod_cast h1)
    have hr0 : (0 : ℚ) ≤ ((Scorer.effective inp).1.length : ℚ) / (Scorer.total_jd inp : ℚ) :=
      div_nonneg (by positivity) (le_of_lt hpos)
    rw [Scorer.W_KEYWORD_OVERLAP]
    push_cast
    nlinarith [hr, hr0]
  refine ⟨rfl, ?_, ?_, ?_, ?_, ?_, ?_, ?_, ?_, ?_, ?_, ?_, ?_⟩
  · norm_num [Scorer.W_KEYWORD_OVERLAP, Scorer.W_SEMANTIC, Scorer.W_PLACEMENT,
      Scorer.W_EXPERIENCE, Scorer.W_EDUCATION, Scorer.W_STRUCTURE,
      Scorer.W_FORMATTING, Scorer.W_IMPACT, Scorer.W_CONTACT, Scorer.W_SENIORITY]
  · norm_num [Scorer.componentCeilings]
  · unfold Scorer.raw_total Scorer.unrounded_components_sum
    ring
  · simpa using hb _ 30 hkw
  · refine le_trans (hb _ 20 ?_) (by norm_num)
    exact_mod_cast min_le_right _ (20 : ℚ)
  · refine le_trans (hb _ 10 ?_) (by norm_num)
    have hall : ∀ r y : ℕ, Scorer.exp_score_of r y ≤ ((10 : ℤ) : ℚ) := by
      intro r y
      unfold Scorer.exp_score_of
      dsimp only
      split_ifs <;> norm_num [Scorer.W_EXPERIENCE]
    exact hall _ _
  · refine le_trans (hb _ 10 ?_) (by norm_num)
    unfold Scorer.education_score Scorer.education_score_of
    split_ifs <;> norm_num [Scorer.W_EDUCATION]
  · refine le_trans (hb _ 2 ?_) (by norm_num)
    unfold Scorer.formatting_score
    split_ifs <;> norm_num [Scorer.W_FORMATTING]
  · refine le_trans (hb _ 5 ?_) (by norm_num)
    unfold Scorer.contact_score
    rw [Scorer.W_CONTACT]
    have : (inp.contact_hits : ℚ) ≤ 3 := by exact_mod_cast hc
    push_cast
    linarith
  · refine le_trans (hb _ 3 ?_) (by norm_num)
    unfold Scorer.structure_score
    split_ifs <;> norm_num [Scorer.W_STRUCTURE]
  · refine le_trans (hb _ 5 ?_) (by norm_num)
    unfold Scorer.impact_score
    split_ifs <;> norm_num [Scorer.W_IMPACT]
  · refine le_trans (hb _ 5 ?_) (by norm_num)
    unfold Scorer.seniority_score
    split_ifs <;> norm_num [Scorer.W_SENIORITY]

/-- C1 witness: the amended score equation instantiated at the concrete
counterexample input (which has 1 ≤ 3 contact hits). -/
theorem C1_witness :
    Claims.C1_input.contact_hits ≤ 3 ∧
    (Scorer.run_analysis false Claims.C1_input).score
      = max 0 (min 100 (Util.pyRound1 (Scorer.raw_total Claims.C1_input))) :=
  ⟨by decide, (C1_amended Claims.C1_input (by decide)).1⟩
